import Mathlib

set_option maxRecDepth 100000

/-!
# Verification of the poc-stock-ai inventory analytics engine

Shallow embedding of the analytics tools under `src/tools/` of the
poc-stock-ai repository, together with proofs of the specification
claims about them.

Modelling conventions:
* SQL `Numeric` quantities, prices and Python `float` intermediates are
  modelled by `ℚ` (exact arithmetic).
* Dates and datetimes are modelled as integer day numbers; the current
  time `datetime.now()` is the field `now` of the database state, and
  `(a - b).days` is integer subtraction.
* Python's `round` (banker's rounding, half-to-even) is `pythonRound`;
  `round(x, n)` is `pyRound2` / `pyRound1`; `int(x)` (truncation toward
  zero) is `pyInt`.
* SQLAlchemy joins are modelled as list products filtered on the join
  keys; `GROUP BY product` aggregation is modelled by iterating
  `db.products` and collecting each product's matching join rows.
* Status enums are kept as the string literals the code compares
  against (`"PAID"`, `"PENDING"`, ...).
* Python's stable `list.sort(key=...)` and the SQL `ORDER BY` clauses
  are modelled by a stable insertion sort on a `ℚ × ℚ` key.
* Output fields that no claim or ordering rule consumes (formatted
  message strings such as `recommendation`) are omitted from the
  result records.
-/

namespace StockAI

/-- Python `round` on an exact value: round half to even (banker's
rounding), as Python applies to floats. -/
def pythonRound (q : ℚ) : ℤ :=
  let f : ℤ := ⌊q⌋
  let r : ℚ := q - f
  if r < 1/2 then f
  else if 1/2 < r then f + 1
  else if 2 ∣ f then f else f + 1

/-- Python `round(x, 2)`. -/
def pyRound2 (q : ℚ) : ℚ := (pythonRound (q * 100) : ℚ) / 100

/-- Python `round(x, 1)`. -/
def pyRound1 (q : ℚ) : ℚ := (pythonRound (q * 10) : ℚ) / 10

/-- Python `int(x)`: truncation toward zero. -/
def pyInt (q : ℚ) : ℤ := if 0 ≤ q then ⌊q⌋ else ⌈q⌉

/-- Lexicographic order on the sort keys used by the Python
`list.sort(key=(k1, k2))` calls and SQL `ORDER BY` clauses. -/
def keyLe (a b : ℚ × ℚ) : Prop := a.1 < b.1 ∨ (a.1 = b.1 ∧ a.2 ≤ b.2)

instance keyLe.decidable : DecidableRel keyLe := fun a b => by
  unfold keyLe; infer_instance

/-- Stable sort by a two-component key, ascending — the behaviour of
Python's `list.sort(key=...)` (and, for the SQL `ORDER BY ... DESC`
clauses, applied to a negated key). -/
def pySort (key : α → ℚ × ℚ) (l : List α) : List α :=
  l.insertionSort (fun a b => keyLe (key a) (key b))

theorem pySort_perm (key : α → ℚ × ℚ) (l : List α) :
    List.Perm (pySort key l) l :=
  List.perm_insertionSort _ l

theorem mem_pySort {key : α → ℚ × ℚ} {l : List α} {a : α} :
    a ∈ pySort key l ↔ a ∈ l :=
  (pySort_perm key l).mem_iff

/-! ## Data model (from `src/database/schema.py`) -/

/-- Row of `Product` (`schema.py`): the fields the analytics read. -/
structure Product where
  id : ℕ
  sale_price : ℚ
  cost_price : ℚ
  current_stock : ℚ
  min_stock : ℚ
  is_active : Bool
  deriving DecidableEq, Repr

/-- Row of `SaleOrder`: `sale_date` as a day number, `status` one of
`PENDING`/`PAID`/`CANCELLED`. -/
structure SaleOrder where
  id : ℕ
  sale_date : ℤ
  status : String
  deriving DecidableEq, Repr

/-- Row of `SaleOrderItem`. -/
structure SaleOrderItem where
  sale_order_id : ℕ
  product_id : ℕ
  quantity : ℚ
  unit_price : ℚ
  deriving DecidableEq, Repr

/-- Row of `PurchaseOrder`. -/
structure PurchaseOrder where
  id : ℕ
  order_date : ℤ
  status : String
  deriving DecidableEq, Repr

/-- Row of `PurchaseOrderItem`. -/
structure PurchaseOrderItem where
  purchase_order_id : ℕ
  product_id : ℕ
  quantity : ℚ
  unit_price : ℚ
  deriving DecidableEq, Repr

/-- Ledger row of `StockMovement`: signed `quantity`, running
`stock_after`, `movement_date` as a day number. -/
structure StockMovement where
  product_id : ℕ
  movement_type : String
  quantity : ℚ
  stock_after : ℚ
  movement_date : ℤ
  deriving DecidableEq, Repr

/-- The queryable relational store, plus the current time
(`datetime.now()` as a day number). -/
structure DB where
  products : List Product
  sale_orders : List SaleOrder
  sale_items : List SaleOrderItem
  purchase_orders : List PurchaseOrder
  purchase_items : List PurchaseOrderItem
  movements : List StockMovement
  now : ℤ
  deriving Repr

/-- The `SaleOrderItem ⋈ SaleOrder` join on
`SaleOrderItem.sale_order_id = SaleOrder.id`. -/
def joinSales (db : DB) : List (SaleOrderItem × SaleOrder) :=
  db.sale_items.flatMap fun it =>
    (db.sale_orders.filter fun o => o.id = it.sale_order_id).map fun o => (it, o)

/-- Join rows for one product restricted to `PAID` orders with
`sale_date ≥ cutoff` — the filter shared by the demand computations. -/
def paidSalesRows (db : DB) (pid : ℕ) (cutoff : ℤ) :
    List (SaleOrderItem × SaleOrder) :=
  (joinSales db).filter fun r =>
    r.1.product_id = pid ∧ cutoff ≤ r.2.sale_date ∧ r.2.status = "PAID"

/-- The `PurchaseOrder ⋈ PurchaseOrderItem` join restricted to one
product and `PENDING` status (used by the risk and purchase tools). -/
def pendingPurchaseRows (db : DB) (pid : ℕ) :
    List (PurchaseOrder × PurchaseOrderItem) :=
  db.purchase_orders.flatMap fun po =>
    ((db.purchase_items.filter fun it =>
        it.purchase_order_id = po.id ∧ it.product_id = pid ∧
          po.status = "PENDING").map fun it => (po, it))

/-! ## Integrity Detector (`src/tools/loss_detection.py`) -/

/-- Rank used by the `severity_order` dictionaries when sorting results
(`CRITICAL` first, then `HIGH`, then `MEDIUM`). -/
def severityRank (s : String) : ℚ :=
  if s = "CRITICAL" then 0 else if s = "HIGH" then 1 else 2

/-- Result record of `detect_stock_losses` (message strings omitted). -/
structure LossRow where
  product_id : ℕ
  current_stock : ℚ
  expected_stock : ℚ
  discrepancy : ℚ
  discrepancy_percentage : ℚ
  estimated_loss_value : ℚ
  last_movement_date : Option ℤ
  loss_movements : ℕ
  severity : String
  deriving DecidableEq, Repr

/-- All stock movements of a product ordered by `movement_date`
(`loss_detection.py` lines 62-64). -/
def productMovements (db : DB) (pid : ℕ) : List StockMovement :=
  pySort (fun m => ((m.movement_date : ℚ), 0))
    (db.movements.filter fun m => m.product_id = pid)

/-- The quantity `expected_stock`: the signed sum of the product's movement
quantities (`loss_detection.py` lines 70-74). -/
def expectedStock (db : DB) (pid : ℕ) : ℚ :=
  ((productMovements db pid).map (·.quantity)).sum

/-- The quantity `discrepancy_pct` (`loss_detection.py` lines 80-86): percentage of
the expected stock, and `0` when the expected stock is zero. -/
def discrepancyPct (expected actual : ℚ) : ℚ :=
  if expected ≠ 0 then |(expected - actual) / expected * 100| else 0

/-- Severity thresholds (`loss_detection.py` lines 100-108). -/
def lossSeverity (pct : ℚ) : String :=
  if pct > 20 then "CRITICAL" else if pct > 10 then "HIGH" else "MEDIUM"

/-- The record appended for a flagged product
(`loss_detection.py` lines 110-124). -/
def lossRowOf (db : DB) (p : Product) : LossRow :=
  let expected_stock := expectedStock db p.id
  let discrepancy := expected_stock - p.current_stock
  let discrepancy_pct := discrepancyPct expected_stock p.current_stock
  { product_id := p.id
    current_stock := p.current_stock
    expected_stock := expected_stock
    discrepancy := discrepancy
    discrepancy_percentage := pyRound2 discrepancy_pct
    estimated_loss_value := pyRound2 |discrepancy * p.cost_price|
    last_movement_date := ((productMovements db p.id).getLast?).map
      (·.movement_date)
    loss_movements :=
      ((productMovements db p.id).filter (·.movement_type = "LOSS")).length
    severity := lossSeverity discrepancy_pct }

/-- One iteration of the product loop of `detect_stock_losses`
(`loss_detection.py` lines 60-124); `none` models `continue`. -/
def lossStep (db : DB) (tolerance_percentage : ℚ) (p : Product) :
    Option LossRow :=
  if p.is_active = false then none
  else if productMovements db p.id = [] then none
  else if discrepancyPct (expectedStock db p.id) p.current_stock ≤
      tolerance_percentage then none
  else some (lossRowOf db p)

/-- The tool `detect_stock_losses` (`loss_detection.py` lines 18-133): flag
active products whose ledger-derived expected stock differs from the
recorded stock by more than the tolerance, sorted by severity and
descending loss value. -/
def detect_stock_losses (db : DB) (tolerance_percentage : ℚ) :
    List LossRow :=
  pySort (fun r => (severityRank r.severity, -r.estimated_loss_value))
    (db.products.filterMap (lossStep db tolerance_percentage))

/-! ## Health score of the Alert Aggregator (`src/tools/alerts.py`) -/

/-- Health score of `get_stock_alerts` (`alerts.py` lines 221-225):
100 minus 15 per critical alert minus 5 per warning, floored at 0.
The arguments are `len(critical_alerts)` and `len(warnings)`. -/
def health_score (num_critical num_warnings : ℕ) : ℤ :=
  max 0 (100 - 15 * (num_critical : ℤ) - 5 * (num_warnings : ℤ))

/-- Health status bands of `get_stock_alerts`
(`alerts.py` lines 227-234). -/
def health_status (score : ℤ) : String :=
  if score ≥ 80 then "EXCELLENT"
  else if score ≥ 60 then "GOOD"
  else if score ≥ 40 then "FAIR"
  else "POOR"

end StockAI


namespace StockAI

theorem lossStep_eq_some {db : DB} {tol : ℚ} {p : Product} {r : LossRow} :
    lossStep db tol p = some r ↔
      p.is_active = true ∧ productMovements db p.id ≠ [] ∧
      tol < discrepancyPct (expectedStock db p.id) p.current_stock ∧
      r = lossRowOf db p := by
  unfold lossStep
  split_ifs with h1 h2 h3
  · simp [h1]
  · simp [h2]
  · simp only [Bool.not_eq_false] at h1
    simp [h1, h2, h3]
  · simp only [Bool.not_eq_false] at h1
    simp only [Option.some.injEq]
    constructor
    · rintro rfl
      exact ⟨h1, h2, lt_of_not_le h3, rfl⟩
    · rintro ⟨-, -, -, rfl⟩
      rfl

/-- A correctly-maintained ledger produces a zero discrepancy
percentage. -/
theorem discrepancyPct_self (e : ℚ) : discrepancyPct e e = 0 := by
  unfold discrepancyPct
  split_ifs with h
  · simp
  · rfl

/-- A ledger-consistent database with one active product:
two `PURCHASE` movements of 5 units and `current_stock = 10`. -/
def dbConsistent : DB :=
  { products := [{ id := 1, sale_price := 10, cost_price := 4,
                   current_stock := 10, min_stock := 0, is_active := true }]
    sale_orders := [], sale_items := [], purchase_orders := []
    purchase_items := []
    movements := [{ product_id := 1, movement_type := "PURCHASE",
                    quantity := 5, stock_after := 5, movement_date := 0 },
                  { product_id := 1, movement_type := "PURCHASE",
                    quantity := 5, stock_after := 10, movement_date := 1 }]
    now := 10 }

/-- C7. Integrity Detector report condition: a product is reported by
`detect_stock_losses` exactly when it is active, has at least one
stock movement, and its discrepancy percentage
`|(expected − current)/expected| × 100` exceeds the caller-supplied
tolerance; severity is `CRITICAL` above 20, `HIGH` above 10, else
`MEDIUM`; and on a ledger where every product's `current_stock` equals
the signed sum of its movement quantities nothing is reported. -/
theorem loss_detector_report_condition (db : DB) (tol : ℚ) :
    (∀ r : LossRow, r ∈ detect_stock_losses db tol ↔
        ∃ p, p ∈ db.products ∧ p.is_active = true ∧
          productMovements db p.id ≠ [] ∧
          tol < discrepancyPct (expectedStock db p.id) p.current_stock ∧
          r = lossRowOf db p)
    ∧ (∀ r ∈ detect_stock_losses db tol,
        r.severity =
          lossSeverity (discrepancyPct r.expected_stock r.current_stock))
    ∧ (0 ≤ tol →
        (∀ p ∈ db.products, p.current_stock = expectedStock db p.id) →
        detect_stock_losses db tol = []) := by
  have hchar : ∀ r : LossRow, r ∈ detect_stock_losses db tol ↔
      ∃ p, p ∈ db.products ∧ p.is_active = true ∧
        productMovements db p.id ≠ [] ∧
        tol < discrepancyPct (expectedStock db p.id) p.current_stock ∧
        r = lossRowOf db p := by
    intro r
    rw [detect_stock_losses, mem_pySort, List.mem_filterMap]
    constructor
    · rintro ⟨p, hp, hstep⟩
      obtain ⟨h1, h2, h3, h4⟩ := lossStep_eq_some.mp hstep
      exact ⟨p, hp, h1, h2, h3, h4⟩
    · rintro ⟨p, hp, h1, h2, h3, h4⟩
      exact ⟨p, hp, lossStep_eq_some.mpr ⟨h1, h2, h3, h4⟩⟩
  refine ⟨hchar, ?_, ?_⟩
  · intro r hr
    obtain ⟨p, -, -, -, -, rfl⟩ := (hchar r).mp hr
    rfl
  · intro htol hledger
    have hnil : db.products.filterMap (lossStep db tol) = [] := by
      rw [List.filterMap_eq_nil_iff]
      intro p hp
      unfold lossStep
      split_ifs with h1 h2 h3
      · rfl
      · rfl
      · rfl
      · exfalso
        apply h3
        rw [hledger p hp, discrepancyPct_self]
        exact htol
    rw [detect_stock_losses, hnil]
    rfl

/-- Witness for C7: on the concrete ledger-consistent database the
detector reports nothing. -/
theorem loss_detector_report_condition_witness :
    detect_stock_losses dbConsistent 5 = [] :=
  (loss_detector_report_condition dbConsistent 5).2.2 (by norm_num)
    (by with_unfolding_all decide)

/-- An active product holding 7 units of recorded stock. -/
def prodZeroExpected : Product :=
  { id := 1, sale_price := 10, cost_price := 4, current_stock := 7,
    min_stock := 0, is_active := true }

/-- A database whose only product has movements `+5` and `-5`
(ledger-derived expected stock exactly 0) while `current_stock = 7`. -/
def dbZeroExpected : DB :=
  { products := [prodZeroExpected]
    sale_orders := [], sale_items := [], purchase_orders := []
    purchase_items := []
    movements := [{ product_id := 1, movement_type := "PURCHASE",
                    quantity := 5, stock_after := 5, movement_date := 0 },
                  { product_id := 1, movement_type := "SALE",
                    quantity := -5, stock_after := 0, movement_date := 1 }]
    now := 10 }

/-- C9. When the ledger-derived expected stock of a product is exactly
0, `detect_stock_losses` sets its discrepancy percentage to 0, so the
product loop skips it for every tolerance ≥ 0 — whatever its
`current_stock` is. -/
theorem loss_zero_expected_never_flagged (db : DB) (tol : ℚ) (p : Product)
    (htol : 0 ≤ tol) (hzero : expectedStock db p.id = 0) :
    discrepancyPct (expectedStock db p.id) p.current_stock = 0 ∧
    lossStep db tol p = none := by
  have hpct : discrepancyPct (expectedStock db p.id) p.current_stock = 0 := by
    rw [hzero]
    unfold discrepancyPct
    simp
  refine ⟨hpct, ?_⟩
  unfold lossStep
  split_ifs with h1 h2 h3
  · rfl
  · rfl
  · rfl
  · exact absurd (hpct ▸ htol) h3

/-- Witness for C9: the product of `dbZeroExpected` has expected stock
0 but `current_stock = 7`, and is skipped at the default 5% tolerance. -/
theorem loss_zero_expected_never_flagged_witness :
    expectedStock dbZeroExpected 1 = 0 ∧
    prodZeroExpected.current_stock = 7 ∧
    lossStep dbZeroExpected 5 prodZeroExpected = none := by
  refine ⟨by with_unfolding_all decide, by with_unfolding_all decide, ?_⟩
  exact (loss_zero_expected_never_flagged dbZeroExpected 5 prodZeroExpected
    (by norm_num) (by with_unfolding_all decide)).2

end StockAI

namespace StockAI

/-- C8. Aggregator health score: `get_stock_alerts` scores inventory
health as 100 minus 15 per critical alert minus 5 per warning, floored
at 0 — hence always within `[0, 100]` — and maps the score to
`EXCELLENT` at 80 and above, `GOOD` at 60 and above, `FAIR` at 40 and
above, and `POOR` below 40. -/
theorem aggregator_health_score (c w : ℕ) :
    health_score c w = max 0 (100 - 15 * (c : ℤ) - 5 * (w : ℤ)) ∧
    0 ≤ health_score c w ∧ health_score c w ≤ 100 ∧
    (80 ≤ health_score c w →
      health_status (health_score c w) = "EXCELLENT") ∧
    (60 ≤ health_score c w → health_score c w < 80 →
      health_status (health_score c w) = "GOOD") ∧
    (40 ≤ health_score c w → health_score c w < 60 →
      health_status (health_score c w) = "FAIR") ∧
    (health_score c w < 40 → health_status (health_score c w) = "POOR") := by
  refine ⟨rfl, le_max_left _ _, ?_, ?_, ?_, ?_, ?_⟩
  · apply max_le
    · norm_num
    · have hc : (0 : ℤ) ≤ (c : ℤ) := Int.ofNat_nonneg c
      have hw : (0 : ℤ) ≤ (w : ℤ) := Int.ofNat_nonneg w
      omega
  all_goals
    unfold health_status
    split_ifs with h1 h2 h3 <;> intros <;> first | rfl | omega

/-- Witness for C8: one critical alert and two warnings score
100 − 15 − 10 = 75, status `GOOD`. -/
theorem aggregator_health_score_witness :
    health_score 1 2 = 75 ∧ health_status (health_score 1 2) = "GOOD" :=
  ⟨by with_unfolding_all decide,
   (aggregator_health_score 1 2).2.2.2.2.1 (by with_unfolding_all decide)
     (by with_unfolding_all decide)⟩

end StockAI

namespace StockAI

/-! ## Stock Rupture detector (`src/tools/stock_analysis.py`) -/

/-- Result record of `detect_stock_rupture` (qualitative fields the
claims and ordering rules use). -/
structure RuptureRow where
  product_id : ℕ
  current_stock : ℚ
  recent_sales_count : ℕ
  last_sale_date : Option ℤ
  total_quantity_sold : ℚ
  estimated_daily_demand : ℚ
  days_out_of_stock : ℤ
  lost_revenue_estimate : ℚ
  deriving DecidableEq, Repr

/-- The value `max(SaleOrder.sale_date)` over a list of join rows. -/
def maxSaleDate (rows : List (SaleOrderItem × SaleOrder)) : Option ℤ :=
  rows.foldl
    (fun acc r =>
      match acc with
      | none => some r.2.sale_date
      | some d => some (max d r.2.sale_date))
    none

/-- The most recent `StockMovement` of the product whose `stock_after`
equals exactly 0 (`stock_analysis.py` lines 90-95); `none` when no such
movement exists. -/
def lastZeroMovement (db : DB) (pid : ℕ) : Option StockMovement :=
  (db.movements.filter fun m => m.product_id = pid ∧ m.stock_after = 0).foldl
    (fun acc m =>
      match acc with
      | none => some m
      | some b =>
          if b.movement_date < m.movement_date then some m else some b)
    none

/-- The per-product metrics of `detect_stock_rupture`
(`stock_analysis.py` lines 84-116). -/
def ruptureRowOf (db : DB) (days_lookback : ℤ) (p : Product) : RuptureRow :=
  let rows := paidSalesRows db p.id (db.now - days_lookback)
  let total_sold := (rows.map fun r => r.1.quantity).sum
  let daily_demand := total_sold / (days_lookback : ℚ)
  let days_out : ℤ :=
    match lastZeroMovement db p.id with
    | some m => db.now - m.movement_date
    | none => 0
  let lost_revenue := (days_out : ℚ) * daily_demand * p.sale_price
  { product_id := p.id
    current_stock := p.current_stock
    recent_sales_count := ((rows.map fun r => r.2.id).dedup).length
    last_sale_date := maxSaleDate rows
    total_quantity_sold := total_sold
    estimated_daily_demand := pyRound2 daily_demand
    days_out_of_stock := days_out
    lost_revenue_estimate := pyRound2 lost_revenue }

/-- The tool `detect_stock_rupture` (`stock_analysis.py` lines 18-121): products
with `current_stock ≤ 0` and at least one `PAID` sale within the
lookback window, ordered by total recent quantity sold descending. -/
def detect_stock_rupture (db : DB) (days_lookback : ℤ) : List RuptureRow :=
  pySort (fun r => (-r.total_quantity_sold, 0))
    ((db.products.filter fun p =>
        p.current_stock ≤ 0 ∧
          paidSalesRows db p.id (db.now - days_lookback) ≠ []).map
      (ruptureRowOf db days_lookback))

/-! ## Stockout Risk forecaster (`src/tools/stockout_risk.py`) -/

/-- Rank of the `risk_order` dictionary used to sort the output
(`stockout_risk.py` line 238). -/
def riskRank (s : String) : ℚ :=
  if s = "CRITICAL" then 0
  else if s = "HIGH" then 1
  else if s = "MEDIUM" then 2
  else 3

/-- Result record of `detect_imminent_stockout_risk`; the
`pending_orders` dictionary is flattened into the `pending_*`,
`is_sufficient`, `oldest_order_days` and `is_delayed` fields. -/
structure RiskRow where
  product_id : ℕ
  current_stock : ℚ
  avg_daily_sales : ℚ
  days_until_stockout : ℚ
  forecasted_demand : ℚ
  pending_count : ℕ
  pending_total_quantity : ℚ
  is_sufficient : Bool
  oldest_order_days : Option ℤ
  is_delayed : Bool
  gap_quantity : ℚ
  risk_level : String
  potential_lost_revenue : ℚ
  unit_sale_price : ℚ
  unit_cost : ℚ
  deriving DecidableEq, Repr

/-- Total quantity of `PAID` sales of a product since `cutoff`. -/
def totalSold (db : DB) (pid : ℕ) (cutoff : ℤ) : ℚ :=
  ((paidSalesRows db pid cutoff).map fun r => r.1.quantity).sum

/-- The `avg_daily_sales` of the Demand Estimator: total `PAID` quantity
over the history window divided by the window length. -/
def avgDailySales (db : DB) (days_history : ℤ) (pid : ℕ) : ℚ :=
  totalSold db pid (db.now - days_history) / (days_history : ℚ)

/-- The value `min(order_date)` over pending order join rows
(`stockout_risk.py` lines 164-178). -/
def oldestOrderDate (rows : List (PurchaseOrder × PurchaseOrderItem)) :
    Option ℤ :=
  rows.foldl
    (fun acc r =>
      match acc with
      | none => some r.1.order_date
      | some d =>
          if r.1.order_date < d then some r.1.order_date else some d)
    none

/-- The risk classification exactly as the specification words it
(§4.3): evaluated in order, first match wins. -/
def riskLevelSpec (days_until_stockout : ℚ)
    (is_sufficient is_delayed : Bool) : String :=
  if days_until_stockout ≤ 3 ∧ is_sufficient = false then "CRITICAL"
  else if days_until_stockout ≤ 3 ∨
      (is_delayed = true ∧ is_sufficient = false) then "HIGH"
  else if is_sufficient = false then "MEDIUM"
  else "LOW"

/-- The record appended for a product that passed every guard of
`detect_imminent_stockout_risk` (`stockout_risk.py` lines 132-235). -/
def riskRowOf (db : DB) (days_forecast days_history : ℤ) (p : Product) :
    RiskRow :=
  let avg_daily_sales := avgDailySales db days_history p.id
  let current_stock := p.current_stock
  let days_until_stockout := current_stock / avg_daily_sales
  let forecasted_demand := avg_daily_sales * (days_forecast : ℚ)
  let pending := pendingPurchaseRows db p.id
  let pending_total := (pending.map fun r => r.2.quantity).sum
  let oldest_days : Option ℤ :=
    (oldestOrderDate pending).map fun d => db.now - d
  let is_delayed : Bool :=
    match oldest_days with
    | some d => decide (7 < d)
    | none => false
  let is_sufficient : Bool :=
    if pending ≠ [] then
      decide (forecasted_demand - current_stock ≤ pending_total)
    else false
  let gap_quantity :=
    max 0 (forecasted_demand - (current_stock + pending_total))
  let risk_level :=
    if days_until_stockout ≤ 3 ∧ is_sufficient = false then "CRITICAL"
    else if days_until_stockout ≤ 3 ∨
        (is_delayed = true ∧ is_sufficient = false) then "HIGH"
    else if is_sufficient = false then "MEDIUM"
    else "LOW"
  let days_of_potential_loss :=
    max 0 ((days_forecast : ℚ) - days_until_stockout)
  { product_id := p.id
    current_stock := pyRound2 current_stock
    avg_daily_sales := pyRound2 avg_daily_sales
    days_until_stockout := pyRound1 days_until_stockout
    forecasted_demand := pyRound2 forecasted_demand
    pending_count := pending.length
    pending_total_quantity := pending_total
    is_sufficient := is_sufficient
    oldest_order_days := oldest_days
    is_delayed := is_delayed
    gap_quantity := pyRound2 gap_quantity
    risk_level := risk_level
    potential_lost_revenue :=
      pyRound2 (avg_daily_sales * p.sale_price * days_of_potential_loss)
    unit_sale_price := p.sale_price
    unit_cost := p.cost_price }

/-- One iteration of the product loop of
`detect_imminent_stockout_risk` (`stockout_risk.py` lines 95-235);
`none` models both the query-level filter (active, stock > 0) and the
`continue` statements. -/
def riskStep (db : DB) (days_forecast days_history min_days_threshold : ℤ)
    (p : Product) : Option RiskRow :=
  if p.is_active = true ∧ 0 < p.current_stock then
    if totalSold db p.id (db.now - days_history) = 0 then none
    else if ¬ 0 < avgDailySales db days_history p.id then none
    else if (min_days_threshold : ℚ) <
        p.current_stock / avgDailySales db days_history p.id then none
    else some (riskRowOf db days_forecast days_history p)
  else none

/-- The tool `detect_imminent_stockout_risk` (`stockout_risk.py` lines 22-244):
active products with positive stock whose projected days-to-zero is at
most the threshold, sorted by risk level then days until stockout. -/
def detect_imminent_stockout_risk (db : DB)
    (days_forecast days_history min_days_threshold : ℤ) : List RiskRow :=
  pySort (fun r => (riskRank r.risk_level, r.days_until_stockout))
    (db.products.filterMap
      (riskStep db days_forecast days_history min_days_threshold))

end StockAI

namespace StockAI

theorem pyRound2_zero : pyRound2 0 = 0 := by with_unfolding_all decide

/-- Extracting the product identity and the positive-stock guard from a
successful risk-detector step. -/
theorem riskStep_eq_some_inv {db : DB} {fc hist thr : ℤ} {p : Product}
    {s : RiskRow} (h : riskStep db fc hist thr p = some s) :
    s.product_id = p.id ∧ 0 < p.current_stock := by
  unfold riskStep at h
  split_ifs at h with h1 h2 h3 h4
  · obtain rfl := Option.some.inj h
    exact ⟨rfl, h1.2⟩

/-- Membership in the rupture output comes from a product with
non-positive stock and a recent `PAID` sale. -/
theorem mem_rupture_inv {db : DB} {L : ℤ} {r : RuptureRow}
    (h : r ∈ detect_stock_rupture db L) :
    ∃ p, p ∈ db.products ∧ p.current_stock ≤ 0 ∧
      paidSalesRows db p.id (db.now - L) ≠ [] ∧ r = ruptureRowOf db L p := by
  rw [detect_stock_rupture, mem_pySort, List.mem_map] at h
  obtain ⟨p, hp, rfl⟩ := h
  rw [List.mem_filter] at hp
  obtain ⟨hpmem, hcond⟩ := hp
  have hc := of_decide_eq_true hcond
  exact ⟨p, hpmem, hc.1, hc.2, rfl⟩

/-- C2. Mutual exclusivity of the reactive and preventive detectors:
in a database whose product ids are unique (the primary-key invariant),
no product id reported by `detect_stock_rupture` (which requires
`current_stock ≤ 0`) is also reported by
`detect_imminent_stockout_risk` (which requires `current_stock > 0`). -/
theorem rupture_risk_mutually_exclusive (db : DB)
    (L days_forecast days_history min_days_threshold : ℤ)
    (hids : (db.products.map Product.id).Nodup) :
    ∀ r ∈ detect_stock_rupture db L,
    ∀ s ∈ detect_imminent_stockout_risk db days_forecast days_history
        min_days_threshold,
      r.product_id ≠ s.product_id := by
  intro r hr s hs heq
  obtain ⟨p, hpmem, hple, -, rfl⟩ := mem_rupture_inv hr
  rw [detect_imminent_stockout_risk, mem_pySort, List.mem_filterMap] at hs
  obtain ⟨q, hqmem, hstep⟩ := hs
  obtain ⟨hsid, hqpos⟩ := riskStep_eq_some_inv hstep
  have hpid : (ruptureRowOf db L p).product_id = p.id := rfl
  have : p.id = q.id := by rw [← hpid, heq, hsid]
  have hpq : p = q := List.inj_on_of_nodup_map hids hpmem hqmem this
  rw [hpq] at hple
  exact absurd hqpos (not_lt.mpr hple)

end StockAI

namespace StockAI

/-- C3-scenario product: 20 units in stock, selling 5 a day. -/
def prodPending : Product :=
  { id := 1, sale_price := 10, cost_price := 4, current_stock := 20,
    min_stock := 0, is_active := true }

/-- C3-scenario database: 450 units of `PAID` sales over the last 90
days (so `avg_daily_sales = 5`) and one `PENDING` purchase order of 140
units placed 2 days ago. -/
def dbPending : DB :=
  { products := [prodPending]
    sale_orders := [{ id := 1, sale_date := 90, status := "PAID" }]
    sale_items := [{ sale_order_id := 1, product_id := 1, quantity := 450,
                     unit_price := 10 }]
    purchase_orders := [{ id := 1, order_date := 98, status := "PENDING" }]
    purchase_items := [{ purchase_order_id := 1, product_id := 1,
                         quantity := 140, unit_price := 4 }]
    movements := []
    now := 100 }

/-- The row `detect_imminent_stockout_risk(30, 90, 7)` produces for the
C3 scenario. -/
def riskRowPending : RiskRow :=
  { product_id := 1, current_stock := 20, avg_daily_sales := 5,
    days_until_stockout := 4, forecasted_demand := 150,
    pending_count := 1, pending_total_quantity := 140,
    is_sufficient := true, oldest_order_days := some 2,
    is_delayed := false, gap_quantity := 0, risk_level := "LOW",
    potential_lost_revenue := 1300, unit_sale_price := 10,
    unit_cost := 4 }

/-- C3. Stockout risk classification: every row the risk detector
emits carries the risk level obtained by evaluating, in order,
CRITICAL (days ≤ 3 and not sufficient), HIGH (days ≤ 3, or delayed and
not sufficient), MEDIUM (not sufficient), else LOW — on the unrounded
`days_until_stockout = current_stock / avg_daily_sales`; and in the
concrete scenario (stock 20, 5 sales/day, 30-day forecast, one PENDING
order of 140 units placed 2 days ago) the product is reported with
`is_sufficient = true` and `risk_level = LOW` although
`days_until_stockout = 4 ≤ 7`. -/
theorem risk_level_classification :
    (∀ (db : DB) (fc hist thr : ℤ) (p : Product) (s : RiskRow),
      riskStep db fc hist thr p = some s →
      s.risk_level =
        riskLevelSpec (p.current_stock / avgDailySales db hist p.id)
          s.is_sufficient s.is_delayed)
    ∧ (detect_imminent_stockout_risk dbPending 30 90 7 =
        [riskRowPending] ∧
       riskRowPending.is_sufficient = true ∧
       riskRowPending.risk_level = "LOW" ∧
       riskRowPending.days_until_stockout = 4) := by
  constructor
  · intro db fc hist thr p s h
    unfold riskStep at h
    split_ifs at h with h1 h2 h3 h4
    obtain rfl := Option.some.inj h
    rfl
  · refine ⟨by with_unfolding_all decide, rfl, rfl, rfl⟩

/-- Witness for C3: the general classification law applied to the
concrete scenario step. -/
theorem risk_level_classification_witness :
    riskStep dbPending 30 90 7 prodPending = some riskRowPending ∧
    riskRowPending.risk_level =
      riskLevelSpec (prodPending.current_stock / avgDailySales dbPending 90 1)
        riskRowPending.is_sufficient riskRowPending.is_delayed :=
  ⟨by with_unfolding_all decide,
   risk_level_classification.1 dbPending 30 90 7 prodPending riskRowPending
     (by with_unfolding_all decide)⟩

end StockAI

namespace StockAI

/-- C10. Rupture metrics edge case: for every reported rupture,
`days_out_of_stock` comes from the most recent movement whose
`stock_after` is exactly 0, and when no such movement exists (for
example stock that jumped from positive straight to negative) both
`days_out_of_stock` and `lost_revenue_estimate` are 0. -/
theorem rupture_days_out_from_zero_movement (db : DB) (L : ℤ) :
    ∀ r ∈ detect_stock_rupture db L,
      (r.days_out_of_stock =
        match lastZeroMovement db r.product_id with
        | some m => db.now - m.movement_date
        | none => 0) ∧
      (lastZeroMovement db r.product_id = none →
        r.days_out_of_stock = 0 ∧ r.lost_revenue_estimate = 0) := by
  intro r hr
  obtain ⟨p, -, -, -, rfl⟩ := mem_rupture_inv hr
  have hid : (ruptureRowOf db L p).product_id = p.id := rfl
  constructor
  · rw [hid]
    rfl
  · intro hnone
    rw [hid] at hnone
    unfold ruptureRowOf
    simp only [hnone]
    refine ⟨by trivial, ?_⟩
    norm_num [pyRound2_zero]

/-- Product already in negative stock (no movement ever recorded a
`stock_after` of exactly 0: the last sale took it from 5 to -2). -/
def prodRupture : Product :=
  { id := 1, sale_price := 10, cost_price := 4, current_stock := -2,
    min_stock := 0, is_active := true }

/-- Product with healthy stock but fast demand (risk detector case). -/
def prodRisk : Product :=
  { id := 2, sale_price := 10, cost_price := 4, current_stock := 20,
    min_stock := 0, is_active := true }

/-- A database exercising both detectors at once: product 1 is in
rupture (stock -2, recent `PAID` sale, no `stock_after = 0` movement),
product 2 is at stockout risk (20 units, 5 units/day of demand). -/
def dbBoth : DB :=
  { products := [prodRupture, prodRisk]
    sale_orders := [{ id := 1, sale_date := 95, status := "PAID" },
                    { id := 2, sale_date := 90, status := "PAID" }]
    sale_items := [{ sale_order_id := 1, product_id := 1, quantity := 2,
                     unit_price := 10 },
                   { sale_order_id := 2, product_id := 2, quantity := 450,
                     unit_price := 10 }]
    purchase_orders := [], purchase_items := []
    movements := [{ product_id := 1, movement_type := "SALE",
                    quantity := -7, stock_after := -2,
                    movement_date := 95 }]
    now := 100 }

/-- The rupture row of product 1 in `dbBoth`. -/
def ruptureRowBoth : RuptureRow := ruptureRowOf dbBoth 14 prodRupture

/-- Witness for C10: product 1 of `dbBoth` is reported by the rupture
detector, has no `stock_after = 0` movement, and gets
`days_out_of_stock = 0` and `lost_revenue_estimate = 0`. -/
theorem rupture_days_out_from_zero_movement_witness :
    ruptureRowBoth ∈ detect_stock_rupture dbBoth 14 ∧
    lastZeroMovement dbBoth ruptureRowBoth.product_id = none ∧
    ruptureRowBoth.days_out_of_stock = 0 ∧
    ruptureRowBoth.lost_revenue_estimate = 0 :=
  ⟨by with_unfolding_all decide, by with_unfolding_all decide,
   (rupture_days_out_from_zero_movement dbBoth 14 ruptureRowBoth
      (by with_unfolding_all decide)).2 (by with_unfolding_all decide)⟩

/-- The risk row of product 2 in `dbBoth`: no pending orders, 4 days
of stock left. -/
def riskRowBoth : RiskRow :=
  { product_id := 2, current_stock := 20, avg_daily_sales := 5,
    days_until_stockout := 4, forecasted_demand := 150,
    pending_count := 0, pending_total_quantity := 0,
    is_sufficient := false, oldest_order_days := none,
    is_delayed := false, gap_quantity := 130, risk_level := "MEDIUM",
    potential_lost_revenue := 1300, unit_sale_price := 10,
    unit_cost := 4 }

/-- Witness for C2: in `dbBoth` the rupture output contains product 1,
the risk output contains product 2, and the theorem shows the ids
differ. -/
theorem rupture_risk_mutually_exclusive_witness :
    (dbBoth.products.map Product.id).Nodup ∧
    ruptureRowBoth ∈ detect_stock_rupture dbBoth 14 ∧
    riskRowBoth ∈ detect_imminent_stockout_risk dbBoth 30 90 7 ∧
    ruptureRowBoth.product_id ≠ riskRowBoth.product_id :=
  ⟨by with_unfolding_all decide, by with_unfolding_all decide,
   by with_unfolding_all decide,
   rupture_risk_mutually_exclusive dbBoth 14 30 90 7
     (by with_unfolding_all decide) ruptureRowBoth
     (by with_unfolding_all decide) riskRowBoth
     (by with_unfolding_all decide)⟩

end StockAI

namespace StockAI

/-! ## ABC (Pareto) classifier (`src/tools/abc_analysis.py`) -/

/-- One aggregated row of the grouped sales query
(`abc_analysis.py` lines 67-104): a product together with its total
`PAID` revenue and quantity inside the period. Products with no
qualifying sales are absent, as in the SQL inner join. -/
structure AbcAggRow where
  product_id : ℕ
  cost_price : ℚ
  total_revenue : ℚ
  total_quantity : ℚ
  deriving DecidableEq, Repr

/-- The grouped query of `get_abc_analysis`: products having at least
one `PAID` sale with `sale_date ≥ cutoff`, with revenue and quantity
sums. The `period` string is abstracted into the `cutoff` day it
denotes (`now-7`, `now-30`, `now-90` or the minimal date). -/
def abcAggRows (db : DB) (cutoff : ℤ) : List AbcAggRow :=
  db.products.filterMap fun p =>
    let rows := paidSalesRows db p.id cutoff
    if rows = [] then none
    else some
      { product_id := p.id
        cost_price := p.cost_price
        total_revenue := (rows.map fun r => r.1.quantity * r.1.unit_price).sum
        total_quantity := (rows.map fun r => r.1.quantity).sum }

/-- Entry of `products_list` (`abc_analysis.py` lines 100-123). -/
structure AbcEntry where
  product_id : ℕ
  metric_value : ℚ
  total_revenue : ℚ
  total_quantity : ℚ
  deriving DecidableEq, Repr

/-- The `metric_value` selection (`abc_analysis.py` lines 106-113). -/
def metricValue (metric : String) (row : AbcAggRow) : ℚ :=
  if metric = "revenue" then row.total_revenue
  else if metric = "profit" then
    row.total_revenue - row.total_quantity * row.cost_price
  else row.total_quantity

/-- The list `products_list` sorted by metric value descending
(`abc_analysis.py` lines 100-126). -/
def productsList (db : DB) (cutoff : ℤ) (metric : String) : List AbcEntry :=
  pySort (fun e => (-e.metric_value, 0))
    ((abcAggRows db cutoff).map fun row =>
      { product_id := row.product_id
        metric_value := metricValue metric row
        total_revenue := row.total_revenue
        total_quantity := row.total_quantity })

/-- The sum `total_metric` (`abc_analysis.py` line 129). -/
def totalMetric (db : DB) (cutoff : ℤ) (metric : String) : ℚ :=
  ((productsList db cutoff metric).map (·.metric_value)).sum

/-- Entry of the returned `classification` list. -/
structure AbcRow where
  product_id : ℕ
  metric_value : ℚ
  total_revenue : ℚ
  total_quantity : ℚ
  percentage_of_total : ℚ
  cumulative_percentage : ℚ
  abc_class : String
  deriving DecidableEq, Repr

/-- The `percentage` of one entry (`abc_analysis.py` line 135): share of
the total metric, or 0 when the total is not positive. -/
def abcPct (total : ℚ) (e : AbcEntry) : ℚ :=
  if 0 < total then e.metric_value / total * 100 else 0

/-- The classification record appended for one entry
(`abc_analysis.py` lines 136-157), given the cumulative percentage
before this entry. -/
def abcRowOf (total cumulative : ℚ) (e : AbcEntry) : AbcRow :=
  { product_id := e.product_id
    metric_value := pyRound2 e.metric_value
    total_revenue := pyRound2 e.total_revenue
    total_quantity := pyRound2 e.total_quantity
    percentage_of_total := pyRound2 (abcPct total e)
    cumulative_percentage := pyRound2 (cumulative + abcPct total e)
    abc_class :=
      if cumulative + abcPct total e ≤ 80 then "A"
      else if cumulative + abcPct total e ≤ 95 then "B"
      else "C" }

/-- The classification walk (`abc_analysis.py` lines 131-157): running
cumulative percentage, class `A` while it stays at most 80, `B` while
at most 95, `C` otherwise. -/
def classifyWalk (total : ℚ) : ℚ → List AbcEntry → List AbcRow
  | _, [] => []
  | cumulative, e :: rest =>
    abcRowOf total cumulative e ::
      classifyWalk total (cumulative + abcPct total e) rest

/-- The `classification` list returned by `get_abc_analysis`
(`abc_analysis.py` lines 17-227; the `summary` and `recommendations`
parts of the return value are not modelled). -/
def get_abc_analysis (db : DB) (cutoff : ℤ) (metric : String) :
    List AbcRow :=
  classifyWalk (totalMetric db cutoff metric) 0
    (productsList db cutoff metric)

/-- The C1 boundary-scenario database: three products whose revenues
in the period are 82, 10 and 8 (shares 82%, 10%, 8%). -/
def dbABC : DB :=
  { products :=
      [{ id := 1, sale_price := 1, cost_price := 0, current_stock := 5,
         min_stock := 0, is_active := true },
       { id := 2, sale_price := 1, cost_price := 0, current_stock := 5,
         min_stock := 0, is_active := true },
       { id := 3, sale_price := 1, cost_price := 0, current_stock := 5,
         min_stock := 0, is_active := true }]
    sale_orders := [{ id := 1, sale_date := 95, status := "PAID" }]
    sale_items := [{ sale_order_id := 1, product_id := 1, quantity := 82,
                     unit_price := 1 },
                   { sale_order_id := 1, product_id := 2, quantity := 10,
                     unit_price := 1 },
                   { sale_order_id := 1, product_id := 3, quantity := 8,
                     unit_price := 1 }]
    purchase_orders := [], purchase_items := []
    movements := []
    now := 100 }

/-- C1 counterexample: in the 82%/10%/8% scenario the code does NOT
assign class `A` to the first product — `cumulative = 82 > 80` falls
into the `B` branch — so the classification is not `A`,`B`,`C`. -/
theorem abc_boundary_counterexample :
    ((get_abc_analysis dbABC 70 "revenue").map fun r =>
        (r.product_id, r.abc_class)) ≠
      [(1, "A"), (2, "B"), (3, "C")] := by
  with_unfolding_all decide

/-- C1 amended: with revenue shares 82%, 10% and 8%, the ranked
cumulative percentages are 82, 92 and 100, and the assigned classes
are `B` (82 > 80), `B` (92 ≤ 95) and `C`. -/
theorem abc_boundary_amended :
    ((get_abc_analysis dbABC 70 "revenue").map fun r =>
        (r.product_id, r.cumulative_percentage, r.abc_class)) =
      [(1, 82, "B"), (2, 92, "B"), (3, 100, "C")] := by
  with_unfolding_all decide

end StockAI

namespace StockAI

/-! ### Monotonicity of Python rounding -/

theorem le_pythonRound (q : ℚ) : ⌊q⌋ ≤ pythonRound q := by
  simp only [pythonRound]
  split_ifs <;> omega

theorem pythonRound_le_floor_add_one (q : ℚ) : pythonRound q ≤ ⌊q⌋ + 1 := by
  simp only [pythonRound]
  split_ifs <;> omega

theorem pythonRound_mono {a b : ℚ} (h : a ≤ b) :
    pythonRound a ≤ pythonRound b := by
  rcases lt_or_eq_of_le (Int.floor_le_floor h) with hf | hf
  · have h1 := pythonRound_le_floor_add_one a
    have h2 := le_pythonRound b
    omega
  · have hr : a - (⌊b⌋ : ℚ) ≤ b - (⌊b⌋ : ℚ) := by linarith
    simp only [pythonRound, hf]
    split_ifs <;> first | omega | linarith

theorem pyRound2_mono {a b : ℚ} (h : a ≤ b) : pyRound2 a ≤ pyRound2 b := by
  unfold pyRound2
  have hm := pythonRound_mono
    (mul_le_mul_of_nonneg_right h (by norm_num : (0:ℚ) ≤ 100))
  have hcast : ((pythonRound (a * 100) : ℤ) : ℚ) ≤
      ((pythonRound (b * 100) : ℤ) : ℚ) := by exact_mod_cast hm
  exact (div_le_div_iff_of_pos_right (by norm_num)).mpr hcast

theorem pyRound2_100 : pyRound2 100 = 100 := by with_unfolding_all decide

/-! ### Properties of the classification walk -/

theorem abcPct_nonneg {total : ℚ} (htotal : 0 < total) {e : AbcEntry}
    (he : 0 ≤ e.metric_value) : 0 ≤ abcPct total e := by
  unfold abcPct
  rw [if_pos htotal]
  positivity

theorem abcRowOf_class (total c : ℚ) (e : AbcEntry) :
    (abcRowOf total c e).abc_class = "A" ∨
    (abcRowOf total c e).abc_class = "B" ∨
    (abcRowOf total c e).abc_class = "C" := by
  simp only [abcRowOf]
  split_ifs
  · exact Or.inl rfl
  · exact Or.inr (Or.inl rfl)
  · exact Or.inr (Or.inr rfl)

theorem classifyWalk_classes (total : ℚ) :
    ∀ (c : ℚ) (l : List AbcEntry), ∀ r ∈ classifyWalk total c l,
      r.abc_class = "A" ∨ r.abc_class = "B" ∨ r.abc_class = "C" := by
  intro c l
  induction l generalizing c with
  | nil => intro r hr; simp [classifyWalk] at hr
  | cons e rest ih =>
    intro r hr
    simp only [classifyWalk] at hr
    rcases List.mem_cons.mp hr with rfl | hr'
    · exact abcRowOf_class total c e
    · exact ih _ r hr'

theorem classifyWalk_chain {total : ℚ} (htotal : 0 < total) :
    ∀ (c : ℚ) (l : List AbcEntry), (∀ e ∈ l, 0 ≤ e.metric_value) →
      List.Chain' (fun a b : AbcRow =>
        a.cumulative_percentage ≤ b.cumulative_percentage)
        (classifyWalk total c l) := by
  intro c l
  induction l generalizing c with
  | nil => intro _; simp [classifyWalk]
  | cons e rest ih =>
    intro hnn
    simp only [classifyWalk]
    refine List.Chain'.cons' (ih _ fun x hx => hnn x (List.mem_cons_of_mem _ hx)) ?_
    intro b hb
    cases rest with
    | nil => simp [classifyWalk] at hb
    | cons e2 rest2 =>
      simp only [classifyWalk, List.head?_cons, Option.mem_def,
        Option.some.injEq] at hb
      subst hb
      show pyRound2 (c + abcPct total e) ≤
        pyRound2 (c + abcPct total e + abcPct total e2)
      have h2 : 0 ≤ abcPct total e2 :=
        abcPct_nonneg htotal (hnn e2 (by simp))
      exact pyRound2_mono (by linarith)

theorem classifyWalk_getLast {total : ℚ} :
    ∀ (c : ℚ) (l : List AbcEntry) (r : AbcRow),
      (classifyWalk total c l).getLast? = some r →
      r.cumulative_percentage = pyRound2 (c + (l.map (abcPct total)).sum) := by
  intro c l
  induction l generalizing c with
  | nil => intro r hr; simp [classifyWalk] at hr
  | cons e rest ih =>
    intro r hr
    cases rest with
    | nil =>
      simp only [classifyWalk, List.getLast?_singleton,
        Option.some.injEq] at hr
      subst hr
      show pyRound2 (c + abcPct total e) = _
      simp
    | cons e2 rest2 =>
      simp only [classifyWalk] at hr
      rw [List.getLast?_cons_cons] at hr
      have h := ih (c + abcPct total e) r (by simp only [classifyWalk]; exact hr)
      rw [h]
      have harg : c + abcPct total e + (List.map (abcPct total) (e2 :: rest2)).sum =
          c + (List.map (abcPct total) (e :: e2 :: rest2)).sum := by
        simp only [List.map_cons, List.sum_cons]
        ring
      rw [harg]

theorem sum_abcPct {total : ℚ} (htotal : 0 < total) (l : List AbcEntry)
    (hsum : (l.map (·.metric_value)).sum = total) :
    (l.map (abcPct total)).sum = 100 := by
  have key : ∀ m : List AbcEntry,
      (m.map (abcPct total)).sum = (m.map (·.metric_value)).sum / total * 100 := by
    intro m
    induction m with
    | nil => simp
    | cons e r ih =>
      simp only [List.map_cons, List.sum_cons, abcPct, if_pos htotal, ih]
      ring
  rw [key, hsum]
  field_simp

end StockAI

namespace StockAI

/-- C5 (amended). ABC completeness: every classified product gets one
of the classes A, B, C, unconditionally. When the total metric is
positive the last cumulative percentage is exactly 100; when moreover
every metric value is nonnegative (always the case for the revenue and
quantity metrics over nonnegative data, but NOT guaranteed for the
profit metric) the cumulative percentages are non-decreasing in the
ranked order. -/
theorem abc_completeness (db : DB) (cutoff : ℤ) (metric : String) :
    (∀ r ∈ get_abc_analysis db cutoff metric,
        r.abc_class = "A" ∨ r.abc_class = "B" ∨ r.abc_class = "C")
    ∧ ((∀ e ∈ productsList db cutoff metric, 0 ≤ e.metric_value) →
        0 < totalMetric db cutoff metric →
        List.Chain' (fun a b : AbcRow =>
            a.cumulative_percentage ≤ b.cumulative_percentage)
          (get_abc_analysis db cutoff metric))
    ∧ (0 < totalMetric db cutoff metric →
        ∀ r : AbcRow, (get_abc_analysis db cutoff metric).getLast? = some r →
          r.cumulative_percentage = 100) := by
  refine ⟨?_, ?_, ?_⟩
  · intro r hr
    exact classifyWalk_classes _ _ _ r hr
  · intro hnn htotal
    exact classifyWalk_chain htotal _ _ hnn
  · intro htotal r hr
    have h := classifyWalk_getLast 0 _ r hr
    rw [h, sum_abcPct htotal _ rfl, zero_add, pyRound2_100]

/-- The C5 counterexample database: under the `profit` metric product
1 earns 100 while product 2 loses 50, so the ranked percentages are
200 and −100 and the cumulative sequence 200, 100 decreases. -/
def dbProfit : DB :=
  { products :=
      [{ id := 1, sale_price := 100, cost_price := 0, current_stock := 5,
         min_stock := 0, is_active := true },
       { id := 2, sale_price := 0, cost_price := 50, current_stock := 5,
         min_stock := 0, is_active := true }]
    sale_orders := [{ id := 1, sale_date := 95, status := "PAID" }]
    sale_items := [{ sale_order_id := 1, product_id := 1, quantity := 1,
                     unit_price := 100 },
                   { sale_order_id := 1, product_id := 2, quantity := 1,
                     unit_price := 0 }]
    purchase_orders := [], purchase_items := [], movements := []
    now := 100 }

/-- C5 counterexample: with the `profit` metric and a negative-profit
product, the cumulative percentages of `get_abc_analysis` taken in the
returned order are NOT non-decreasing (they are 200 then 100 here). -/
theorem abc_monotonicity_counterexample :
    ¬ List.Chain' (fun a b : AbcRow =>
        a.cumulative_percentage ≤ b.cumulative_percentage)
      (get_abc_analysis dbProfit 70 "profit") := by
  intro hchain
  have hmap : (get_abc_analysis dbProfit 70 "profit").map
      (·.cumulative_percentage) = [200, 100] := by
    with_unfolding_all decide
  have h2 := List.chain'_map_of_chain'
    (fun r : AbcRow => r.cumulative_percentage) (fun a b hab => hab) hchain
  rw [hmap] at h2
  have h3 : (200 : ℚ) ≤ 100 := List.chain'_cons.mp h2 |>.1
  norm_num at h3

/-- The last classification row of the C1/C5 revenue scenario. -/
def abcRowLast : AbcRow :=
  { product_id := 3, metric_value := 8, total_revenue := 8,
    total_quantity := 8, percentage_of_total := 8,
    cumulative_percentage := 100, abc_class := "C" }

/-- Witness for C5: on the concrete revenue scenario all metric values
are nonnegative and the total is positive, so the cumulative chain is
non-decreasing and the last row closes at exactly 100. -/
theorem abc_completeness_witness :
    List.Chain' (fun a b : AbcRow =>
        a.cumulative_percentage ≤ b.cumulative_percentage)
      (get_abc_analysis dbABC 70 "revenue") ∧
    (get_abc_analysis dbABC 70 "revenue").getLast? = some abcRowLast ∧
    abcRowLast.cumulative_percentage = 100 :=
  ⟨(abc_completeness dbABC 70 "revenue").2.1
      (by with_unfolding_all decide) (by with_unfolding_all decide),
   by with_unfolding_all decide,
   (abc_completeness dbABC 70 "revenue").2.2
      (by with_unfolding_all decide) abcRowLast
      (by with_unfolding_all decide)⟩

end StockAI

namespace StockAI

/-! ## Availability Issue detector (`src/tools/availability_analysis.py`) -/

/-- Result record of `detect_availability_issues`
(message strings omitted). -/
structure AvailabilityRow where
  product_id : ℕ
  stockout_events : ℕ
  total_days_out : ℤ
  availability_rate : ℚ
  lost_sales_count : ℤ
  current_status : String
  issue_severity : String
  deriving DecidableEq, Repr

/-- The candidate query (`availability_analysis.py` lines 59-67):
DISTINCT ids of products having at least one sale — of ANY status —
with `sale_date ≥ cutoff`. Note the query has no `PAID` filter. -/
def productsWithSales (db : DB) (cutoff : ℤ) : List ℕ :=
  ((db.products.filter fun p =>
      (joinSales db).any fun r =>
        r.1.product_id = p.id ∧ cutoff ≤ r.2.sale_date).map
    Product.id).dedup

/-- Movements of the product that left it at exactly zero stock inside
the period, in date order (`availability_analysis.py` lines 78-84). -/
def stockoutMovements (db : DB) (pid : ℕ) (cutoff : ℤ) :
    List StockMovement :=
  pySort (fun m => ((m.movement_date : ℚ), 0))
    (db.movements.filter fun m =>
      m.product_id = pid ∧ m.stock_after = 0 ∧ cutoff ≤ m.movement_date)

/-- Date of the first movement after `d` with positive `stock_after`
(`availability_analysis.py` lines 95-101). -/
def nextStockInDate (db : DB) (pid : ℕ) (d : ℤ) : Option ℤ :=
  ((db.movements.filter fun m =>
      m.product_id = pid ∧ d < m.movement_date ∧ 0 < m.stock_after).map
    (·.movement_date)).foldl
    (fun acc x =>
      match acc with
      | none => some x
      | some b => some (min b x))
    none

/-- Days out of stock attributed to one stockout event
(`availability_analysis.py` lines 103-107). -/
def daysOutOf (db : DB) (pid : ℕ) (m : StockMovement) : ℤ :=
  match nextStockInDate db pid m.movement_date with
  | some d => d - m.movement_date
  | none => db.now - m.movement_date

/-- The per-product record of `detect_availability_issues`
(`availability_analysis.py` lines 89-159). -/
def availabilityRowOf (db : DB) (days_period : ℤ) (product : Product) :
    AvailabilityRow :=
  let cutoff := db.now - days_period
  let stockouts := stockoutMovements db product.id cutoff
  let total_days_out := (stockouts.map (daysOutOf db product.id)).sum
  let availability_rate : ℚ :=
    if 0 < days_period then
      ((days_period : ℚ) - total_days_out) / days_period * 100
    else 0
  let total_sales := totalSold db product.id cutoff
  let days_available := days_period - total_days_out
  let avg_daily_sales : ℚ :=
    if 0 < days_available then total_sales / (days_available : ℚ) else 0
  { product_id := product.id
    stockout_events := stockouts.length
    total_days_out := total_days_out
    availability_rate := pyRound1 availability_rate
    lost_sales_count := pyInt (avg_daily_sales * (total_days_out : ℚ))
    current_status :=
      if 0 < product.current_stock then "IN_STOCK" else "OUT_OF_STOCK"
    issue_severity :=
      if availability_rate < 80 then "CRITICAL"
      else if availability_rate < 90 then "HIGH"
      else "MEDIUM" }

/-- One iteration of the candidate loop of `detect_availability_issues`
(`availability_analysis.py` lines 71-159); `none` models the `continue`
branches (product not found, no stockouts in the period). -/
def availabilityStep (db : DB) (days_period : ℤ) (pid : ℕ) :
    Option AvailabilityRow :=
  match db.products.find? fun p => p.id = pid with
  | none => none
  | some product =>
      if stockoutMovements db product.id (db.now - days_period) = [] then
        none
      else some (availabilityRowOf db days_period product)

/-- The tool `detect_availability_issues` (`availability_analysis.py` lines
18-168): recurring availability problems of recently sold products,
sorted by severity then descending lost sales. -/
def detect_availability_issues (db : DB) (days_period : ℤ) :
    List AvailabilityRow :=
  pySort (fun r => (severityRank r.issue_severity,
      -(r.lost_sales_count : ℚ)))
    ((productsWithSales db (db.now - days_period)).filterMap
      (availabilityStep db days_period))

end StockAI

namespace StockAI

/-- A product whose only sale in the period is a `PENDING` (unpaid)
order, yet whose ledger has a `stock_after = 0` movement. -/
def dbUnpaidSale : DB :=
  { products := [{ id := 1, sale_price := 10, cost_price := 4,
                   current_stock := 0, min_stock := 0, is_active := true }]
    sale_orders := [{ id := 1, sale_date := 95, status := "PENDING" }]
    sale_items := [{ sale_order_id := 1, product_id := 1, quantity := 3,
                     unit_price := 10 }]
    purchase_orders := [], purchase_items := []
    movements := [{ product_id := 1, movement_type := "SALE",
                    quantity := -3, stock_after := 0,
                    movement_date := 95 }]
    now := 100 }

/-- C4 counterexample: `detect_availability_issues` reports the product
of `dbUnpaidSale` although it has no `PAID` sale in the period — the
candidate query filters only on `sale_date`, not on the status. -/
theorem availability_paid_counterexample :
    ¬ (∀ r ∈ detect_availability_issues dbUnpaidSale 90,
        paidSalesRows dbUnpaidSale r.product_id
          (dbUnpaidSale.now - 90) ≠ []) := by
  with_unfolding_all decide

/-- C4 (amended). Availability Issue precondition: every product
reported by `detect_availability_issues` had at least one sale — of
any status, not necessarily `PAID` — within the analysis period. -/
theorem availability_sale_in_period (db : DB) (P : ℤ) :
    ∀ r ∈ detect_availability_issues db P,
      ∃ x ∈ joinSales db, x.1.product_id = r.product_id ∧
        db.now - P ≤ x.2.sale_date := by
  intro r hr
  rw [detect_availability_issues, mem_pySort, List.mem_filterMap] at hr
  obtain ⟨pid, hpid, hstep⟩ := hr
  unfold productsWithSales at hpid
  rw [List.mem_dedup, List.mem_map] at hpid
  obtain ⟨p, hpfil, hpid_eq⟩ := hpid
  rw [List.mem_filter] at hpfil
  obtain ⟨hpmem, hany⟩ := hpfil
  rw [List.any_eq_true] at hany
  obtain ⟨x, hx, hcond⟩ := hany
  have hc := of_decide_eq_true hcond
  have hrid : r.product_id = pid := by
    unfold availabilityStep at hstep
    cases hfind : db.products.find? fun q => q.id = pid with
    | none => rw [hfind] at hstep; exact absurd hstep (by simp)
    | some product =>
        rw [hfind] at hstep
        dsimp only at hstep
        split_ifs at hstep with hso
        obtain rfl := Option.some.inj hstep
        have h2 := List.find?_some hfind
        simp only [decide_eq_true_eq] at h2
        exact h2
  refine ⟨x, hx, ?_, hc.2⟩
  rw [hrid, ← hpid_eq]
  exact hc.1

/-- The availability row produced for the product of `dbUnpaidSale`:
5 days out of stock in a 90-day window. -/
def availRowUnpaid : AvailabilityRow :=
  { product_id := 1, stockout_events := 1, total_days_out := 5,
    availability_rate := 472/5, lost_sales_count := 0,
    current_status := "OUT_OF_STOCK", issue_severity := "MEDIUM" }

/-- Witness for C4: the unpaid-sale product is reported, and the
amended theorem exhibits its (non-PAID) sale inside the period. -/
theorem availability_sale_in_period_witness :
    availRowUnpaid ∈ detect_availability_issues dbUnpaidSale 90 ∧
    ∃ x ∈ joinSales dbUnpaidSale,
      x.1.product_id = availRowUnpaid.product_id ∧
      dbUnpaidSale.now - 90 ≤ x.2.sale_date :=
  ⟨by with_unfolding_all decide,
   availability_sale_in_period dbUnpaidSale 90 availRowUnpaid
     (by with_unfolding_all decide)⟩

end StockAI

namespace StockAI

/-! ## Purchase Recommendation Engine (`src/tools/purchase_suggestions.py`) -/

/-- Rank of the `priority_order` dictionary
(`purchase_suggestions.py` line 208). -/
def priorityRank (s : String) : ℚ :=
  if s = "HIGH" then 0 else if s = "MEDIUM" then 1 else 2

/-- Result record of `suggest_purchase_order`; the `pending_orders`
dictionary is flattened into the `has_pending`, `pending_*` and
`is_sufficient` fields. -/
structure PurchaseRow where
  product_id : ℕ
  current_stock : ℚ
  avg_daily_sales : ℚ
  forecasted_demand : ℚ
  stock_needed : ℚ
  suggested_quantity : ℤ
  unit_cost : ℚ
  order_value : ℚ
  priority : String
  last_sale_date : Option ℤ
  days_until_stockout : Option ℤ
  has_pending : Bool
  pending_total_quantity : ℚ
  pending_count : ℕ
  is_sufficient : Bool
  deriving DecidableEq, Repr

/-- The 20% buffer and tiered rounding of `suggest_purchase_order`
(`purchase_suggestions.py` lines 122-136): `raw = stock_needed × 1.2`,
rounded to the nearest unit when below 10, to the nearest 5 when below
100, to the nearest 10 otherwise, floored at 1 unit. The float literal
`1.2` is modelled as the exact rational 12/10. -/
def bufferedTieredQty (stock_needed : ℚ) : ℤ :=
  let raw := stock_needed * (12/10)
  let q : ℤ :=
    if raw < 10 then pythonRound raw
    else if raw < 100 then pythonRound (raw / 5) * 5
    else pythonRound (raw / 10) * 10
  if q < 1 then 1 else q

/-- The sizing rule exactly as the specification words it (§4.4):
20% buffer, round to the nearest unit below 10, nearest 5 between 10
and 100, nearest 10 above 100, floor at 1 unit. -/
def tieredRoundingSpec (stock_needed : ℚ) : ℤ :=
  let raw := stock_needed * (12/10)
  let q : ℤ :=
    if raw < 10 then pythonRound raw
    else if raw ≤ 100 then pythonRound (raw / 5) * 5
    else pythonRound (raw / 10) * 10
  max 1 q

/-- The record appended for a product that passed every guard of
`suggest_purchase_order` (`purchase_suggestions.py` lines 122-205). -/
def purchaseRowOf (db : DB) (days_forecast days_history : ℤ)
    (p : Product) : PurchaseRow :=
  let avg_daily_sales := avgDailySales db days_history p.id
  let forecasted_demand := avg_daily_sales * (days_forecast : ℚ)
  let current_stock := p.current_stock
  let stock_needed := forecasted_demand - current_stock
  let suggested_quantity := bufferedTieredQty stock_needed
  let days_until_stockout : ℤ :=
    if 0 < avg_daily_sales then pyInt (current_stock / avg_daily_sales)
    else 999
  let pending := pendingPurchaseRows db p.id
  let pending_quantity := (pending.map fun r => r.2.quantity).sum
  let is_sufficient : Bool :=
    decide (forecasted_demand ≤ current_stock + pending_quantity)
  { product_id := p.id
    current_stock := current_stock
    avg_daily_sales := pyRound2 avg_daily_sales
    forecasted_demand := pyRound2 forecasted_demand
    stock_needed := pyRound2 stock_needed
    suggested_quantity := suggested_quantity
    unit_cost := p.cost_price
    order_value := pyRound2 ((suggested_quantity : ℚ) * p.cost_price)
    priority :=
      if days_until_stockout ≤ 7 ∧ is_sufficient = false then "HIGH"
      else if days_until_stockout ≤ 14 ∧ is_sufficient = false then
        "MEDIUM"
      else "LOW"
    last_sale_date :=
      maxSaleDate (paidSalesRows db p.id (db.now - days_history))
    days_until_stockout :=
      if days_until_stockout < 999 then some days_until_stockout else none
    has_pending := decide (0 < pending.length)
    pending_total_quantity := pending_quantity
    pending_count := pending.length
    is_sufficient := is_sufficient }

/-- One iteration of the product loop of `suggest_purchase_order`
(`purchase_suggestions.py` lines 82-205); `none` models the
query-level `is_active` filter and the `continue` statements (no
sales, enough stock, order value too small). -/
def purchaseStep (db : DB) (days_forecast days_history : ℤ)
    (min_order_value : ℚ) (p : Product) : Option PurchaseRow :=
  if p.is_active = true then
    if totalSold db p.id (db.now - days_history) = 0 then none
    else if avgDailySales db days_history p.id * (days_forecast : ℚ) -
        p.current_stock ≤ 0 then none
    else if
        ((bufferedTieredQty (avgDailySales db days_history p.id *
          (days_forecast : ℚ) - p.current_stock) : ℤ) : ℚ) *
          p.cost_price < min_order_value then none
    else some (purchaseRowOf db days_forecast days_history p)
  else none

/-- The tool `suggest_purchase_order` (`purchase_suggestions.py` lines 21-214):
purchase suggestions for active products whose forecast demand exceeds
current stock, sorted by priority then descending order value. -/
def suggest_purchase_order (db : DB) (days_forecast days_history : ℤ)
    (min_order_value : ℚ) : List PurchaseRow :=
  pySort (fun r => (priorityRank r.priority, -r.order_value))
    (db.products.filterMap
      (purchaseStep db days_forecast days_history min_order_value))

end StockAI

namespace StockAI

theorem one_le_bufferedTieredQty (s : ℚ) : 1 ≤ bufferedTieredQty s := by
  simp only [bufferedTieredQty]
  split_ifs <;> omega

theorem int_floor_at_one (q : ℤ) : (if q < 1 then 1 else q) = max 1 q := by
  split_ifs with h
  · exact (max_eq_left (le_of_lt h)).symm
  · exact (max_eq_right (not_lt.mp h)).symm

theorem bufferedTieredQty_eq_spec (s : ℚ) :
    bufferedTieredQty s = tieredRoundingSpec s := by
  simp only [bufferedTieredQty, tieredRoundingSpec]
  have hq : (if s * (12/10) < 10 then pythonRound (s * (12/10))
      else if s * (12/10) < 100 then pythonRound (s * (12/10) / 5) * 5
      else pythonRound (s * (12/10) / 10) * 10) =
      (if s * (12/10) < 10 then pythonRound (s * (12/10))
      else if s * (12/10) ≤ 100 then pythonRound (s * (12/10) / 5) * 5
      else pythonRound (s * (12/10) / 10) * 10) := by
    by_cases h1 : s * (12/10) < 10
    · rw [if_pos h1, if_pos h1]
    · rw [if_neg h1, if_neg h1]
      by_cases h2 : s * (12/10) < 100
      · rw [if_pos h2, if_pos (le_of_lt h2)]
      · rw [if_neg h2]
        by_cases h3 : s * (12/10) ≤ 100
        · rw [if_pos h3]
          have h4 : s * (12/10) = 100 := le_antisymm h3 (not_lt.mp h2)
          rw [h4]
          norm_num
          with_unfolding_all decide
        · rw [if_neg h3]
  rw [hq]
  exact int_floor_at_one _

/-- C6. Purchase sizing floor: every suggestion of
`suggest_purchase_order` carries a `suggested_quantity` equal to the
specification's sizing rule — 20% buffer on the unrounded
`stock_needed = forecast_demand − current_stock`, then tiered rounding
(nearest unit below 10, nearest 5 between 10 and 100, nearest 10 above
100) — and that quantity never falls below 1 unit. -/
theorem purchase_quantity_buffer_floor (db : DB) (fc hist : ℤ)
    (minv : ℚ) (p : Product) (r : PurchaseRow)
    (h : purchaseStep db fc hist minv p = some r) :
    r.suggested_quantity =
      tieredRoundingSpec
        (avgDailySales db hist p.id * (fc : ℚ) - p.current_stock) ∧
    1 ≤ r.suggested_quantity := by
  unfold purchaseStep at h
  split_ifs at h with h1 h2 h3 h4
  obtain rfl := Option.some.inj h
  exact ⟨bufferedTieredQty_eq_spec _, one_le_bufferedTieredQty _⟩

/-- The suggestion row for product 2 of `dbBoth`: `stock_needed = 130`,
buffered to 156, rounded to the nearest 10 above 100, giving 160. -/
def purchaseRowRisk : PurchaseRow :=
  { product_id := 2, current_stock := 20, avg_daily_sales := 5,
    forecasted_demand := 150, stock_needed := 130,
    suggested_quantity := 160, unit_cost := 4, order_value := 640,
    priority := "HIGH", last_sale_date := some 90,
    days_until_stockout := some 4, has_pending := false,
    pending_total_quantity := 0, pending_count := 0,
    is_sufficient := false }

/-- Witness for C6: the concrete suggestion for product 2 of `dbBoth`
matches the specification's sizing rule and is at least 1 unit. -/
theorem purchase_quantity_buffer_floor_witness :
    purchaseStep dbBoth 30 90 100 prodRisk = some purchaseRowRisk ∧
    (purchaseRowRisk.suggested_quantity =
      tieredRoundingSpec
        (avgDailySales dbBoth 90 2 * (30 : ℚ) - prodRisk.current_stock) ∧
     1 ≤ purchaseRowRisk.suggested_quantity) :=
  ⟨by with_unfolding_all decide,
   purchase_quantity_buffer_floor dbBoth 30 90 100 prodRisk
     purchaseRowRisk (by with_unfolding_all decide)⟩

end StockAI
